import Mathlib

/-
  Verification of the transaction-identifier lifecycle subsystem
  (slru.c, multixact.c, commit_ts.c, varsup.c) against its specification.

  Identifiers (TransactionId, MultiXactId, MultiXactOffset) are 64-bit
  unsigned integers in this code base; we embed them as Nat values with
  explicit reduction modulo 2^64 wherever C unsigned arithmetic wraps.
-/

/-! ## 64-bit machine arithmetic -/

/-- Modulus of 64-bit unsigned arithmetic, 2 ^ 64. -/
def M64 : Nat := 18446744073709551616

/-- Half the 64-bit modulus, 2 ^ 63: the first value whose int64
reinterpretation is negative. -/
def HALF64 : Nat := 9223372036854775808

/-- Truncation of a natural number to 64 bits, as C uint64 arithmetic does. -/
def u64 (n : Nat) : Nat := n % M64

/-- Value of a 64-bit word reinterpreted as a two's-complement int64,
as the C cast (int64) x does. -/
def int64Of (n : Nat) : Int :=
  if u64 n < HALF64 then (u64 n : Int) else (u64 n : Int) - (M64 : Int)

/-- The C expression (a - b) evaluated in uint64 arithmetic. -/
def sub64 (a b : Nat) : Nat := u64 (a + (M64 - u64 b))

/-! ## Constants

BLCKSZ and SLRU_PAGES_PER_SEGMENT use the standard build configuration
(8 kB pages, 32 pages per segment).  TransactionId, MultiXactId and
MultiXactOffset are 8 bytes wide in this code base (the member group is
documented in multixact.c as 72 bytes: 8 flag bytes plus 8 transaction
ids).  The reserved identifier values are the ones from transam.h /
multixact.h: invalid = 0, bootstrap = 1, frozen = 2, first normal = 3,
and FirstMultiXactId = 1. -/

def BLCKSZ : Nat := 8192

def SLRU_PAGES_PER_SEGMENT : Nat := 32

def InvalidTransactionId : Nat := 0

def BootstrapTransactionId : Nat := 1

def FrozenTransactionId : Nat := 2

def FirstNormalTransactionId : Nat := 3

def InvalidMultiXactId : Nat := 0

def FirstMultiXactId : Nat := 1

/-- TransactionIdIsValid(xid): xid differs from InvalidTransactionId. -/
def TransactionIdIsValid (xid : Nat) : Bool := xid != InvalidTransactionId

/-- TransactionIdIsNormal(xid): xid is at or above FirstNormalTransactionId. -/
def TransactionIdIsNormal (xid : Nat) : Bool := FirstNormalTransactionId ≤ xid

/-- MultiXactIdIsValid(multi): multi differs from InvalidMultiXactId. -/
def MultiXactIdIsValid (multi : Nat) : Bool := multi != InvalidMultiXactId

/-! ## Circular identifier comparison (multixact.c, transam) -/

/-- MultiXactIdPrecedes from multixact.c:
int64 diff = (int64) (multi1 - multi2); return diff < 0. -/
def MultiXactIdPrecedes (multi1 multi2 : Nat) : Bool :=
  decide (int64Of (sub64 multi1 multi2) < 0)

/-- MultiXactIdPrecedesOrEquals from multixact.c:
int64 diff = (int64) (multi1 - multi2); return diff <= 0. -/
def MultiXactIdPrecedesOrEquals (multi1 multi2 : Nat) : Bool :=
  decide (int64Of (sub64 multi1 multi2) ≤ 0)

/-- MultiXactOffsetPrecedes from multixact.c: same circular order on
member offsets. -/
def MultiXactOffsetPrecedes (offset1 offset2 : Nat) : Bool :=
  decide (int64Of (sub64 offset1 offset2) < 0)

/-- TransactionIdPrecedes (transam): same circular order on 64-bit xids. -/
def TransactionIdPrecedes (id1 id2 : Nat) : Bool :=
  decide (int64Of (sub64 id1 id2) < 0)

/-- Characterisation of the circular order used by every comparison proof:
precedes holds exactly when the wrapped difference is at or above 2 ^ 63. -/
theorem multiXactIdPrecedes_iff (a b : Nat) :
    MultiXactIdPrecedes a b = true ↔
      HALF64 ≤ (a + (M64 - b % M64)) % M64 := by
  simp only [MultiXactIdPrecedes, int64Of, sub64, u64, M64, HALF64,
    decide_eq_true_eq]
  split <;> omega

/-- Complement of multiXactIdPrecedes_iff, for conclusions of the form
precedes = false. -/
theorem multiXactIdPrecedes_iff_false (a b : Nat) :
    MultiXactIdPrecedes a b = false ↔
      (a + (M64 - b % M64)) % M64 < HALF64 := by
  simp only [MultiXactIdPrecedes, int64Of, sub64, u64, M64, HALF64,
    decide_eq_false_iff_not]
  split <;> omega

/-! ## Page/entry decomposition (multixact.c, commit_ts.c) -/

/-- MULTIXACT_OFFSETS_PER_PAGE = BLCKSZ / sizeof(MultiXactOffset). -/
def MULTIXACT_OFFSETS_PER_PAGE : Nat := BLCKSZ / 8

/-- MultiXactIdToOffsetPage from multixact.c. -/
def MultiXactIdToOffsetPage (multi : Nat) : Nat :=
  multi / MULTIXACT_OFFSETS_PER_PAGE

/-- MultiXactIdToOffsetEntry from multixact.c. -/
def MultiXactIdToOffsetEntry (multi : Nat) : Nat :=
  multi % MULTIXACT_OFFSETS_PER_PAGE

/-- MultiXactIdToOffsetSegment from multixact.c. -/
def MultiXactIdToOffsetSegment (multi : Nat) : Nat :=
  MultiXactIdToOffsetPage multi / SLRU_PAGES_PER_SEGMENT

def MXACT_MEMBER_BITS_PER_XACT : Nat := 8

def MULTIXACT_FLAGBYTES_PER_GROUP : Nat := 8

def MULTIXACT_MEMBERS_PER_MEMBERGROUP : Nat := MULTIXACT_FLAGBYTES_PER_GROUP * 1

/-- sizeof(TransactionId) * MULTIXACT_MEMBERS_PER_MEMBERGROUP +
MULTIXACT_FLAGBYTES_PER_GROUP = 72 bytes per group. -/
def MULTIXACT_MEMBERGROUP_SIZE : Nat :=
  8 * MULTIXACT_MEMBERS_PER_MEMBERGROUP + MULTIXACT_FLAGBYTES_PER_GROUP

def MULTIXACT_MEMBERGROUPS_PER_PAGE : Nat := BLCKSZ / MULTIXACT_MEMBERGROUP_SIZE

def MULTIXACT_MEMBERS_PER_PAGE : Nat :=
  MULTIXACT_MEMBERGROUPS_PER_PAGE * MULTIXACT_MEMBERS_PER_MEMBERGROUP

/-- MXOffsetToMemberPage from multixact.c. -/
def MXOffsetToMemberPage (offset : Nat) : Nat :=
  offset / MULTIXACT_MEMBERS_PER_PAGE

/-- MXOffsetToMemberSegment from multixact.c. -/
def MXOffsetToMemberSegment (offset : Nat) : Nat :=
  MXOffsetToMemberPage offset / SLRU_PAGES_PER_SEGMENT

/-- MXOffsetToFlagsOffset from multixact.c: byte offset within the page
of the flag word of the group holding this member. -/
def MXOffsetToFlagsOffset (offset : Nat) : Nat :=
  ((offset / MULTIXACT_MEMBERS_PER_MEMBERGROUP) % MULTIXACT_MEMBERGROUPS_PER_PAGE) *
    MULTIXACT_MEMBERGROUP_SIZE

/-- MXOffsetToFlagsBitShift from multixact.c. -/
def MXOffsetToFlagsBitShift (offset : Nat) : Nat :=
  (offset % MULTIXACT_MEMBERS_PER_MEMBERGROUP) * MXACT_MEMBER_BITS_PER_XACT

/-- MXOffsetToMemberOffset from multixact.c: flag area of the group, then
8 flag bytes, then member_in_group transaction ids of 8 bytes each. -/
def MXOffsetToMemberOffset (offset : Nat) : Nat :=
  MXOffsetToFlagsOffset offset + MULTIXACT_FLAGBYTES_PER_GROUP +
    (offset % MULTIXACT_MEMBERS_PER_MEMBERGROUP) * 8

/-- SizeOfCommitTimestampEntry from commit_ts.c: an 8-byte timestamp plus
a 2-byte replication origin id. -/
def SizeOfCommitTimestampEntry : Nat := 10

def COMMIT_TS_XACTS_PER_PAGE : Nat := BLCKSZ / SizeOfCommitTimestampEntry

/-- TransactionIdToCTsPage from commit_ts.c. -/
def TransactionIdToCTsPage (xid : Nat) : Nat := xid / COMMIT_TS_XACTS_PER_PAGE

/-- TransactionIdToCTsEntry from commit_ts.c. -/
def TransactionIdToCTsEntry (xid : Nat) : Nat := xid % COMMIT_TS_XACTS_PER_PAGE

/-! ## Read-only accessors of the shared MultiXact counters (multixact.c) -/

/-- ReadNextMultiXactId from multixact.c, as a function of the shared
nextMXact counter it reads under MultiXactGenLock. -/
def ReadNextMultiXactId (nextMXact : Nat) : Nat :=
  if nextMXact < FirstMultiXactId then FirstMultiXactId else nextMXact

/-- ReadMultiXactIdRange from multixact.c, as a function of the shared
oldestMultiXactId and nextMXact counters it reads under MultiXactGenLock. -/
def ReadMultiXactIdRange (oldestMultiXactId nextMXact : Nat) : Nat × Nat :=
  (if oldestMultiXactId < FirstMultiXactId then FirstMultiXactId
   else oldestMultiXactId,
   if nextMXact < FirstMultiXactId then FirstMultiXactId else nextMXact)

/-! ## Claims C2, C9, C10 -/

/-- C2: identifier comparison is circular, precedes(a,b) iff
(int64)(a-b) < 0.  For every 64-bit a: precedes(a,a+1) holds while
precedes(a+1,a) does not; precedes is irreflexive; it is anti-symmetric
except at the exact antipodal pair b = a + 2^63, where both directions
hold; and it is not transitive across the whole ring (concrete
three-element counterexample to transitivity). -/
theorem C2_precedes_circular :
    (∀ a : Nat, a < M64 →
      MultiXactIdPrecedes a (u64 (a + 1)) = true ∧
      MultiXactIdPrecedes (u64 (a + 1)) a = false) ∧
    (∀ a : Nat, a < M64 → MultiXactIdPrecedes a a = false) ∧
    (∀ a b : Nat, a < M64 → b < M64 → b ≠ u64 (a + HALF64) →
      ¬(MultiXactIdPrecedes a b = true ∧ MultiXactIdPrecedes b a = true)) ∧
    (∀ a : Nat, a < M64 →
      MultiXactIdPrecedes a (u64 (a + HALF64)) = true ∧
      MultiXactIdPrecedes (u64 (a + HALF64)) a = true) ∧
    (MultiXactIdPrecedes 0 (HALF64 - 1) = true ∧
     MultiXactIdPrecedes (HALF64 - 1) (M64 - 2) = true ∧
     MultiXactIdPrecedes 0 (M64 - 2) = false) := by
  refine ⟨?_, ?_, ?_, ?_, ?_, ?_, ?_⟩
  · intro a ha
    rw [multiXactIdPrecedes_iff, multiXactIdPrecedes_iff_false]
    simp only [u64, M64, HALF64] at ha ⊢
    omega
  · intro a ha
    rw [multiXactIdPrecedes_iff_false]
    simp only [M64, HALF64] at ha ⊢
    omega
  · intro a b ha hb hne h
    rcases h with ⟨h1, h2⟩
    rw [multiXactIdPrecedes_iff] at h1 h2
    apply hne
    simp only [u64, M64, HALF64] at ha hb h1 h2 ⊢
    omega
  · intro a ha
    rw [multiXactIdPrecedes_iff, multiXactIdPrecedes_iff]
    simp only [u64, M64, HALF64] at ha ⊢
    omega
  · decide
  · decide
  · decide

/-- Witness for C2 at concrete inputs a = 7, b = 9. -/
theorem C2_precedes_circular_witness :
    MultiXactIdPrecedes 7 (u64 8) = true ∧
    MultiXactIdPrecedes 7 7 = false ∧
    ¬(MultiXactIdPrecedes 7 9 = true ∧ MultiXactIdPrecedes 9 7 = true) ∧
    MultiXactIdPrecedes 7 (u64 (7 + HALF64)) = true := by
  refine ⟨(C2_precedes_circular.1 7 (by decide)).1,
          C2_precedes_circular.2.1 7 (by decide),
          C2_precedes_circular.2.2.1 7 9 (by decide) (by decide) (by decide),
          (C2_precedes_circular.2.2.2.1 7 (by decide)).1⟩

/-- C9: the page/entry decompositions recombine exactly for the offsets
log and the commit-timestamp log, and the member-space maps give every
offset a distinct byte location: the member location is 8 flag bytes past
the start of its 72-byte group plus 8 bytes per member-in-group, the flag
bit shift is 8 bits per member-in-group, and two distinct offsets on the
same member page never map to the same member byte location (nor, within
one group, to the same flag bits). -/
theorem C9_page_math_roundtrip :
    (∀ x : Nat,
      MultiXactIdToOffsetPage x * MULTIXACT_OFFSETS_PER_PAGE +
        MultiXactIdToOffsetEntry x = x) ∧
    (∀ x : Nat,
      TransactionIdToCTsPage x * COMMIT_TS_XACTS_PER_PAGE +
        TransactionIdToCTsEntry x = x) ∧
    (∀ o : Nat,
      MXOffsetToMemberOffset o =
        MXOffsetToFlagsOffset o + MULTIXACT_FLAGBYTES_PER_GROUP +
          (o % MULTIXACT_MEMBERS_PER_MEMBERGROUP) * 8 ∧
      MXOffsetToFlagsBitShift o =
        (o % MULTIXACT_MEMBERS_PER_MEMBERGROUP) * MXACT_MEMBER_BITS_PER_XACT) ∧
    (∀ o1 o2 : Nat, MXOffsetToMemberPage o1 = MXOffsetToMemberPage o2 →
      o1 ≠ o2 →
      MXOffsetToMemberOffset o1 ≠ MXOffsetToMemberOffset o2 ∧
      (MXOffsetToFlagsOffset o1 = MXOffsetToFlagsOffset o2 →
        MXOffsetToFlagsBitShift o1 ≠ MXOffsetToFlagsBitShift o2)) := by
  refine ⟨?_, ?_, ?_, ?_⟩
  · intro x
    simp only [MultiXactIdToOffsetPage, MultiXactIdToOffsetEntry,
      MULTIXACT_OFFSETS_PER_PAGE, BLCKSZ]
    omega
  · intro x
    simp only [TransactionIdToCTsPage, TransactionIdToCTsEntry,
      COMMIT_TS_XACTS_PER_PAGE, SizeOfCommitTimestampEntry, BLCKSZ]
    omega
  · intro o
    exact ⟨rfl, rfl⟩
  · intro o1 o2 hpage hne
    simp only [MXOffsetToMemberPage, MXOffsetToMemberOffset,
      MXOffsetToFlagsOffset, MXOffsetToFlagsBitShift,
      MULTIXACT_MEMBERS_PER_PAGE, MULTIXACT_MEMBERGROUPS_PER_PAGE,
      MULTIXACT_MEMBERGROUP_SIZE, MULTIXACT_MEMBERS_PER_MEMBERGROUP,
      MULTIXACT_FLAGBYTES_PER_GROUP, MXACT_MEMBER_BITS_PER_XACT,
      BLCKSZ] at *
    constructor
    · omega
    · omega

/-- Witness for C9 at concrete inputs x = 12345, o1 = 5, o2 = 13. -/
theorem C9_page_math_roundtrip_witness :
    MultiXactIdToOffsetPage 12345 * MULTIXACT_OFFSETS_PER_PAGE +
      MultiXactIdToOffsetEntry 12345 = 12345 ∧
    MXOffsetToMemberOffset 5 ≠ MXOffsetToMemberOffset 13 := by
  refine ⟨C9_page_math_roundtrip.1 12345,
          (C9_page_math_roundtrip.2.2.2 5 13 (by decide) (by decide)).1⟩

/-- C10: ReadNextMultiXactId and ReadMultiXactIdRange clamp a shared
counter that has wrapped into the reserved range below FirstMultiXactId
up to FirstMultiXactId, so their results are always at or above
FirstMultiXactId and in particular never InvalidMultiXactId. -/
theorem C10_read_accessors_clamped :
    ∀ oldestMultiXactId nextMXact : Nat,
      FirstMultiXactId ≤ ReadNextMultiXactId nextMXact ∧
      FirstMultiXactId ≤ (ReadMultiXactIdRange oldestMultiXactId nextMXact).1 ∧
      FirstMultiXactId ≤ (ReadMultiXactIdRange oldestMultiXactId nextMXact).2 ∧
      ReadNextMultiXactId nextMXact ≠ InvalidMultiXactId ∧
      (ReadMultiXactIdRange oldestMultiXactId nextMXact).1 ≠ InvalidMultiXactId ∧
      (ReadMultiXactIdRange oldestMultiXactId nextMXact).2 ≠ InvalidMultiXactId ∧
      (FirstMultiXactId ≤ nextMXact →
        ReadNextMultiXactId nextMXact = nextMXact) := by
  intro oldest next
  simp only [ReadNextMultiXactId, ReadMultiXactIdRange, FirstMultiXactId,
    InvalidMultiXactId]
  split <;> split <;> omega


/-! ## GetNewTransactionId (varsup.c)

The shared state touched by GetNewTransactionId.  The three extendable
logs are modelled by the list of page numbers they have zeroed so far;
MyProc and its ProcGlobal mirror are modelled by the fields this function
assigns. -/

structure XidGenState where
  nextXid : Nat
  xidVacLimit : Nat
  myProcXid : Nat
  procGlobalXid : Nat
  subxidCount : Nat
  subxids : List Nat
  subxidOverflowed : Bool
  clogPagesZeroed : List Nat
  commitTsPagesZeroed : List Nat
  subtransPagesZeroed : List Nat
  deriving Repr, DecidableEq

/-- Observable steps of GetNewTransactionId, in program order. -/
inductive XidEvent where
  | acquireXidGenLock
  | releaseXidGenLock
  | extendCLOG
  | extendCommitTs
  | extendSUBTRANS
  | advanceNextXid
  | publishTopXid
  | publishSubXid
  | errorRaised
  deriving Repr, DecidableEq

/-- TransactionIdFollowsOrEquals (transam): (int64)(a - b) >= 0. -/
def TransactionIdFollowsOrEquals (id1 id2 : Nat) : Bool :=
  !TransactionIdPrecedes id1 id2

/-- Modelled from the spec: FullTransactionIdAdvance comes from a header
that is not part of this source tree; per the spec the counter is a
monotonic 64-bit value that skips the reserved sentinel values below the
first normal identifier when it wraps. -/
def FullTransactionIdAdvance (x : Nat) : Nat :=
  if u64 (x + 1) < FirstNormalTransactionId then FirstNormalTransactionId
  else u64 (x + 1)

def PGPROC_MAX_CACHED_SUBXIDS : Nat := 64

/-- Modelled from the spec: ExtendCLOG and ExtendSUBTRANS live in clog.c
and subtrans.c, which are not part of this source tree; ExtendCommitTs
(commit_ts.c, in the tree) has the same shape.  Each is a no-op except at
the first identifier of a new page, where the new page is zeroed, and any
I/O failure inside raises an error, modelled by the fail oracle. -/
def extendLogModel (perPage : Nat) (fail : Bool) (xid : Nat)
    (pages : List Nat) : Option (List Nat) :=
  if fail then none
  else if xid % perPage != 0 && xid != FirstNormalTransactionId then some pages
  else some (xid / perPage :: pages)

/-- The page list extendLogModel produces when no I/O failure occurs. -/
def extendPagesModel (perPage : Nat) (xid : Nat) (pages : List Nat) :
    List Nat :=
  if xid % perPage != 0 && xid != FirstNormalTransactionId then pages
  else xid / perPage :: pages

theorem extendLogModel_false (perPage xid : Nat) (pages : List Nat) :
    extendLogModel perPage false xid pages =
      some (extendPagesModel perPage xid pages) := by
  unfold extendLogModel extendPagesModel
  split
  · simp_all
  · split <;> rfl

theorem extendLogModel_true (perPage xid : Nat) (pages : List Nat) :
    extendLogModel perPage true xid pages = none := rfl

def CLOG_XACTS_PER_PAGE : Nat := BLCKSZ * 4

def SUBTRANS_XACTS_PER_PAGE : Nat := BLCKSZ / 8

def ExtendCLOG (fail : Bool) (xid : Nat) (pages : List Nat) :
    Option (List Nat) :=
  extendLogModel CLOG_XACTS_PER_PAGE fail xid pages

def ExtendCommitTs (fail : Bool) (xid : Nat) (pages : List Nat) :
    Option (List Nat) :=
  extendLogModel COMMIT_TS_XACTS_PER_PAGE fail xid pages

def ExtendSUBTRANS (fail : Bool) (xid : Nat) (pages : List Nat) :
    Option (List Nat) :=
  extendLogModel SUBTRANS_XACTS_PER_PAGE fail xid pages

/-- Lock events of GetNewTransactionId before the log extensions: the
xidVacLimit branch releases and re-acquires XidGenLock around its
signalling; with no concurrent writer the re-read counter is unchanged,
so the branch contributes only its lock events. -/
def xidGenPrelude (s : XidGenState) : List XidEvent :=
  if TransactionIdFollowsOrEquals s.nextXid s.xidVacLimit then
    [XidEvent.acquireXidGenLock, XidEvent.releaseXidGenLock,
     XidEvent.acquireXidGenLock]
  else
    [XidEvent.acquireXidGenLock]

/-- GetNewTransactionId from varsup.c (normal path: not bootstrap, not
parallel mode, not recovery), acting on the shared state under
XidGenLock.  Returns the assigned xid (none when an extension raised an
error), the state as left behind, and the event trace in program order. -/
def GetNewTransactionId (isSubXact failCLOG failCommitTs failSUBTRANS : Bool)
    (s : XidGenState) : Option Nat × XidGenState × List XidEvent :=
  let xid := s.nextXid
  let pre := xidGenPrelude s
  match ExtendCLOG failCLOG xid s.clogPagesZeroed with
  | none => (none, s, pre ++ [XidEvent.errorRaised])
  | some clogPages =>
    let s1 := { s with clogPagesZeroed := clogPages }
    let t1 := pre ++ [XidEvent.extendCLOG]
    match ExtendCommitTs failCommitTs xid s1.commitTsPagesZeroed with
    | none => (none, s1, t1 ++ [XidEvent.errorRaised])
    | some ctsPages =>
      let s2 := { s1 with commitTsPagesZeroed := ctsPages }
      let t2 := t1 ++ [XidEvent.extendCommitTs]
      match ExtendSUBTRANS failSUBTRANS xid s2.subtransPagesZeroed with
      | none => (none, s2, t2 ++ [XidEvent.errorRaised])
      | some subPages =>
        let s3 := { s2 with subtransPagesZeroed := subPages }
        let t3 := t2 ++ [XidEvent.extendSUBTRANS]
        let s4 := { s3 with nextXid := FullTransactionIdAdvance s3.nextXid }
        let t4 := t3 ++ [XidEvent.advanceNextXid]
        if isSubXact then
          let s5 :=
            if s4.subxidCount < PGPROC_MAX_CACHED_SUBXIDS then
              { s4 with subxids := s4.subxids ++ [xid],
                        subxidCount := s4.subxidCount + 1 }
            else
              { s4 with subxidOverflowed := true }
          (some xid, s5, t4 ++ [XidEvent.publishSubXid,
                                XidEvent.releaseXidGenLock])
        else
          let s5 := { s4 with myProcXid := xid, procGlobalXid := xid }
          (some xid, s5, t4 ++ [XidEvent.publishTopXid,
                                XidEvent.releaseXidGenLock])

/-- C1: in GetNewTransactionId the three log extensions run before the
shared nextXid counter is advanced, so when any extension fails with an
error the state left behind still holds the original nextXid; and on
success the new identifier is stored into MyProc->xid and
ProcGlobal->xids (for a top-level allocation; a subtransaction stores it
into the shared subxid cache instead, leaving MyProc->xid alone) strictly
before XidGenLock is released: the trace always ends
extend-extend-extend, advance, publish, release, in that order. -/
theorem C1_getNewTransactionId_ordering
    (isSubXact failCLOG failCommitTs failSUBTRANS : Bool) (s : XidGenState) :
    ((GetNewTransactionId isSubXact failCLOG failCommitTs
        failSUBTRANS s).1 = none →
      (GetNewTransactionId isSubXact failCLOG failCommitTs
        failSUBTRANS s).2.1.nextXid = s.nextXid) ∧
    (∀ xid, (GetNewTransactionId isSubXact failCLOG failCommitTs
        failSUBTRANS s).1 = some xid →
      xid = s.nextXid ∧
      (GetNewTransactionId isSubXact failCLOG failCommitTs
        failSUBTRANS s).2.1.nextXid = FullTransactionIdAdvance s.nextXid ∧
      (isSubXact = false →
        (GetNewTransactionId isSubXact failCLOG failCommitTs
          failSUBTRANS s).2.1.myProcXid = s.nextXid ∧
        (GetNewTransactionId isSubXact failCLOG failCommitTs
          failSUBTRANS s).2.1.procGlobalXid = s.nextXid) ∧
      (isSubXact = true →
        (GetNewTransactionId isSubXact failCLOG failCommitTs
          failSUBTRANS s).2.1.myProcXid = s.myProcXid) ∧
      (GetNewTransactionId isSubXact failCLOG failCommitTs
        failSUBTRANS s).2.2 =
        xidGenPrelude s ++ [XidEvent.extendCLOG, XidEvent.extendCommitTs,
          XidEvent.extendSUBTRANS, XidEvent.advanceNextXid,
          (if isSubXact then XidEvent.publishSubXid
           else XidEvent.publishTopXid),
          XidEvent.releaseXidGenLock]) := by
  cases failCLOG with
  | true =>
    refine ⟨fun _ => rfl, fun xid h => ?_⟩
    simp only [GetNewTransactionId, ExtendCLOG, extendLogModel_true] at h
    exact Option.noConfusion h
  | false =>
    cases failCommitTs with
    | true =>
      refine ⟨fun _ => ?_, fun xid h => ?_⟩
      · simp only [GetNewTransactionId, ExtendCLOG, ExtendCommitTs,
          extendLogModel_false, extendLogModel_true]
      · simp only [GetNewTransactionId, ExtendCLOG, ExtendCommitTs,
          extendLogModel_false, extendLogModel_true] at h
        exact Option.noConfusion h
    | false =>
      cases failSUBTRANS with
      | true =>
        refine ⟨fun _ => ?_, fun xid h => ?_⟩
        · simp only [GetNewTransactionId, ExtendCLOG, ExtendCommitTs,
            ExtendSUBTRANS, extendLogModel_false, extendLogModel_true]
        · simp only [GetNewTransactionId, ExtendCLOG, ExtendCommitTs,
            ExtendSUBTRANS, extendLogModel_false, extendLogModel_true] at h
          exact Option.noConfusion h
      | false =>
        cases isSubXact with
        | true =>
          refine ⟨fun h => ?_, fun xid h => ?_⟩
          · simp only [GetNewTransactionId, ExtendCLOG, ExtendCommitTs,
              ExtendSUBTRANS, extendLogModel_false] at h
            exact Option.noConfusion h
          · simp only [GetNewTransactionId, ExtendCLOG, ExtendCommitTs,
              ExtendSUBTRANS, extendLogModel_false] at h ⊢
            by_cases hc : s.subxidCount < PGPROC_MAX_CACHED_SUBXIDS <;>
              simp_all <;>
              (try (constructor <;> split <;> rfl))
        | false =>
          refine ⟨fun h => ?_, fun xid h => ?_⟩
          · simp only [GetNewTransactionId, ExtendCLOG, ExtendCommitTs,
              ExtendSUBTRANS, extendLogModel_false] at h
            exact Option.noConfusion h
          · simp only [GetNewTransactionId, ExtendCLOG, ExtendCommitTs,
              ExtendSUBTRANS, extendLogModel_false] at h ⊢
            simp_all

/-- Witness for C1: a concrete top-level allocation with no extension
failure, starting from nextXid = 1000. -/
theorem C1_getNewTransactionId_ordering_witness :
    (let s : XidGenState :=
      { nextXid := 1000, xidVacLimit := 2000, myProcXid := 0,
        procGlobalXid := 0, subxidCount := 0, subxids := [],
        subxidOverflowed := false, clogPagesZeroed := [],
        commitTsPagesZeroed := [], subtransPagesZeroed := [] }
     (GetNewTransactionId false false false false s).1 = some 1000 ∧
     (GetNewTransactionId false false false false s).2.1.nextXid = 1001 ∧
     (GetNewTransactionId false false false false s).2.1.myProcXid = 1000) := by
  have h := C1_getNewTransactionId_ordering false false false false
    { nextXid := 1000, xidVacLimit := 2000, myProcXid := 0,
      procGlobalXid := 0, subxidCount := 0, subxids := [],
      subxidOverflowed := false, clogPagesZeroed := [],
      commitTsPagesZeroed := [], subtransPagesZeroed := [] }
  have h1 := h.2 1000 (by decide)
  exact ⟨by decide, by rw [h1.2.1]; decide, (h1.2.2.1 rfl).1⟩

/-! ## Commit timestamp log (commit_ts.c)

The shared state of the commit-timestamp module: the activation flag and
last-commit cache of CommitTimestampShared, the oldest/newest bounds kept
in TransamVariables, the SLRU page content (modelled as a map from xid to
its stored entry, zero-filled pages meaning a (0,0) entry), and the list
of on-disk segment files. -/

/-- TIMESTAMP_NOBEGIN sets a timestamp to DT_NOBEGIN, the most negative
int64 value. -/
def DT_NOBEGIN : Int := -9223372036854775808

def InvalidRepOriginId : Nat := 0

structure CommitTsState where
  commitTsActive : Bool
  xidLastCommit : Nat
  lastCommitTime : Int
  lastCommitNodeId : Nat
  oldestCommitTsXid : Nat
  newestCommitTsXid : Nat
  entries : Nat → Int × Nat
  segments : List Nat

/-- Outcome of TransactionIdGetCommitTsData: the two ereport paths and
the normal return (found flag, timestamp, origin). -/
inductive CommitTsResult where
  | errorInvalidXid
  | errorFeatureDisabled
  | ok (found : Bool) (ts : Int) (nodeid : Nat)
  deriving Repr, DecidableEq

/-- TransactionTreeSetCommitTsData from commit_ts.c for a transaction
with no subtransactions: no-op when the module is inactive, else write
the SLRU entry for xid, update the cached last-commit data, and advance
newestCommitTsXid if xid follows it. -/
def TransactionTreeSetCommitTsData (xid : Nat) (timestamp : Int)
    (nodeid : Nat) (s : CommitTsState) : CommitTsState :=
  if !s.commitTsActive then s
  else
    { s with
      entries := fun y => if y = xid then (timestamp, nodeid) else s.entries y,
      xidLastCommit := xid,
      lastCommitTime := timestamp,
      lastCommitNodeId := nodeid,
      newestCommitTsXid :=
        if TransactionIdPrecedes s.newestCommitTsXid xid then xid
        else s.newestCommitTsXid }

/-- TransactionIdGetCommitTsData from commit_ts.c: error on an invalid
xid; false for the permanent (bootstrap/frozen) xids; error when the
module is not active; serve the cached last commit when xid matches;
false when xid falls outside the valid [oldest, newest] bounds or the
bounds are invalid; otherwise read the SLRU entry, a found flag of
true meaning a nonzero stored timestamp. -/
def TransactionIdGetCommitTsData (xid : Nat) (s : CommitTsState) :
    CommitTsResult :=
  if !TransactionIdIsValid xid then CommitTsResult.errorInvalidXid
  else if !TransactionIdIsNormal xid then CommitTsResult.ok false 0 0
  else if !s.commitTsActive then CommitTsResult.errorFeatureDisabled
  else if s.xidLastCommit = xid then
    CommitTsResult.ok (decide (s.lastCommitTime ≠ 0)) s.lastCommitTime
      s.lastCommitNodeId
  else if !TransactionIdIsValid s.oldestCommitTsXid ||
          TransactionIdPrecedes xid s.oldestCommitTsXid ||
          TransactionIdPrecedes s.newestCommitTsXid xid then
    CommitTsResult.ok false 0 InvalidRepOriginId
  else
    let entry := s.entries xid
    CommitTsResult.ok (decide (entry.1 ≠ 0)) entry.1 entry.2

/-- DeactivateCommitTs from commit_ts.c: clear the activation flag, reset
the cached last-commit data (xid invalid, time set to DT_NOBEGIN, origin
invalid), reset the oldest/newest bounds to InvalidTransactionId, and
remove every on-disk segment (SlruScanDirCbDeleteAll). -/
def DeactivateCommitTs (s : CommitTsState) : CommitTsState :=
  { s with
    commitTsActive := false,
    xidLastCommit := InvalidTransactionId,
    lastCommitTime := DT_NOBEGIN,
    lastCommitNodeId := InvalidRepOriginId,
    oldestCommitTsXid := InvalidTransactionId,
    newestCommitTsXid := InvalidTransactionId,
    segments := [] }

/-- C8: with the module active, after recording nonzero timestamp T and
origin O for a normal xid X inside the valid bounds, a lookup of X
returns found with exactly T and O; after DeactivateCommitTs the same
lookup raises the feature-disabled error, and deactivation resets the
cached last-commit data and both bounds to invalid and deletes every
on-disk segment. -/
theorem C8_commit_ts_roundtrip_and_deactivation
    (s : CommitTsState) (X : Nat) (T : Int) (O : Nat)
    (hactive : s.commitTsActive = true)
    (hnormal : TransactionIdIsNormal X = true)
    (hT : T ≠ 0)
    (hbound1 : TransactionIdPrecedes X s.oldestCommitTsXid = false)
    (hbound2 : TransactionIdPrecedes s.newestCommitTsXid X = false) :
    (TransactionIdGetCommitTsData X (TransactionTreeSetCommitTsData X T O s) =
      CommitTsResult.ok true T O) ∧
    (TransactionIdGetCommitTsData X
        (DeactivateCommitTs (TransactionTreeSetCommitTsData X T O s)) =
      CommitTsResult.errorFeatureDisabled) ∧
    (let d := DeactivateCommitTs (TransactionTreeSetCommitTsData X T O s)
     d.segments = [] ∧
     d.oldestCommitTsXid = InvalidTransactionId ∧
     d.newestCommitTsXid = InvalidTransactionId ∧
     d.xidLastCommit = InvalidTransactionId ∧
     d.lastCommitTime = DT_NOBEGIN ∧
     d.lastCommitNodeId = InvalidRepOriginId) := by
  have hvalid : TransactionIdIsValid X = true := by
    simp only [TransactionIdIsValid, TransactionIdIsNormal,
      FirstNormalTransactionId, InvalidTransactionId,
      decide_eq_true_eq, bne_iff_ne, Ne] at hnormal ⊢
    omega
  refine ⟨?_, ?_, ?_, ?_, ?_, ?_, ?_, ?_⟩
  · simp [TransactionIdGetCommitTsData, TransactionTreeSetCommitTsData,
      hactive, hvalid, hnormal, hT]
  · simp [TransactionIdGetCommitTsData, TransactionTreeSetCommitTsData,
      DeactivateCommitTs, hactive, hvalid, hnormal]
  · simp [DeactivateCommitTs]
  · simp [DeactivateCommitTs]
  · simp [DeactivateCommitTs]
  · simp [DeactivateCommitTs]
  · simp [DeactivateCommitTs]
  · simp [DeactivateCommitTs]

/-- Witness for C8: a concrete active state, xid 100, timestamp 42,
origin 7. -/
theorem C8_commit_ts_roundtrip_and_deactivation_witness :
    (let s : CommitTsState :=
      { commitTsActive := true, xidLastCommit := 0, lastCommitTime := 0,
        lastCommitNodeId := 0, oldestCommitTsXid := 10,
        newestCommitTsXid := 200, entries := fun _ => (0, 0),
        segments := [0, 1] }
     TransactionIdGetCommitTsData 100
        (TransactionTreeSetCommitTsData 100 42 7 s) =
       CommitTsResult.ok true 42 7 ∧
     TransactionIdGetCommitTsData 100
        (DeactivateCommitTs (TransactionTreeSetCommitTsData 100 42 7 s)) =
       CommitTsResult.errorFeatureDisabled ∧
     (DeactivateCommitTs (TransactionTreeSetCommitTsData 100 42 7 s)).segments
       = []) :=
  have h := C8_commit_ts_roundtrip_and_deactivation
    { commitTsActive := true, xidLastCommit := 0, lastCommitTime := 0,
      lastCommitNodeId := 0, oldestCommitTsXid := 10,
      newestCommitTsXid := 200, entries := fun _ => (0, 0),
      segments := [0, 1] }
    100 42 7 rfl (by decide) (by decide) (by decide) (by decide)
  ⟨h.1, h.2.1, h.2.2.1⟩

/-! ## SLRU buffer and segment state (slru.c) -/

/-- Status of a buffer slot (SlruPageStatus in slru.h). -/
inductive SlruPageStatus where
  | empty
  | readInProgress
  | valid
  | writeInProgress
  deriving Repr, DecidableEq

/-- One buffer slot: page status, dirty flag, page number and LRU count. -/
structure SlruSlot where
  status : SlruPageStatus
  dirty : Bool
  pageno : Nat
  lruCount : Nat
  deriving Repr, DecidableEq

/-- The parts of SlruSharedData that SimpleLruTruncate touches: the
latest page marker, the buffer slots, and the on-disk segment files
(list of segment numbers). -/
structure SlruState where
  latestPageNumber : Nat
  slots : List SlruSlot
  segments : List Nat
  deriving Repr, DecidableEq

/-- SlruMayDeleteSegment from slru.c: a segment may be deleted only when
both its first and its last page precede the cutoff under the circular
page comparison. -/
def SlruMayDeleteSegment (pagePrecedes : Nat → Nat → Bool)
    (segpage cutoffPage : Nat) : Bool :=
  pagePrecedes segpage cutoffPage &&
    pagePrecedes (segpage + SLRU_PAGES_PER_SEGMENT - 1) cutoffPage

/-- Directory scan of SlruScanDirCbDeleteCutoff: every segment whose
pages wholly precede the cutoff is unlinked, the rest are kept. -/
def slruDeleteCutoffSegments (pagePrecedes : Nat → Nat → Bool)
    (cutoffPage : Nat) (segments : List Nat) : List Nat :=
  segments.filter (fun segno =>
    !SlruMayDeleteSegment pagePrecedes (segno * SLRU_PAGES_PER_SEGMENT)
      cutoffPage)

/-- SimpleLruTruncate from slru.c.  When the latest page number precedes
the cutoff, the apparent-wraparound message is logged and nothing else
happens.  Otherwise the restart loop runs until every non-empty buffer
slot whose page precedes the cutoff has been written out (when dirty or
mid-I/O) and set to EMPTY; the model states that sequential fixed point
directly.  Finally the directory scan deletes the wholly-preceding
segments. -/
def SimpleLruTruncate (pagePrecedes : Nat → Nat → Bool) (cutoffPage : Nat)
    (st : SlruState) : SlruState :=
  if pagePrecedes st.latestPageNumber cutoffPage then st
  else
    { st with
      slots := st.slots.map (fun slot =>
        if slot.status != SlruPageStatus.empty &&
            pagePrecedes slot.pageno cutoffPage then
          { slot with status := SlruPageStatus.empty, dirty := false }
        else slot),
      segments := slruDeleteCutoffSegments pagePrecedes cutoffPage
        st.segments }

/-- SimpleLruDoesPhysicalPageExist from slru.c, for the states produced
here, in which every existing segment file has its full length: the page
exists exactly when its segment file does. -/
def SimpleLruDoesPhysicalPageExist (st : SlruState) (pageno : Nat) : Bool :=
  decide ((pageno / SLRU_PAGES_PER_SEGMENT) ∈ st.segments)

/-- C3: SimpleLruTruncate is a no-op (beyond the apparent-wraparound
message) whenever the latest page number precedes the cutoff; a segment
is deleted only when both its first and last pages precede the cutoff,
so no segment containing a page at-or-after the cutoff, nor one
straddling the wrap point, is ever deleted; and when truncation
proceeds, every page whose segment lies wholly before the cutoff no
longer physically exists. -/
theorem C3_simpleLruTruncate_safety (pagePrecedes : Nat → Nat → Bool)
    (cutoffPage : Nat) (st : SlruState) :
    (pagePrecedes st.latestPageNumber cutoffPage = true →
      SimpleLruTruncate pagePrecedes cutoffPage st = st) ∧
    (∀ segno, segno ∈ st.segments →
      segno ∉ (SimpleLruTruncate pagePrecedes cutoffPage st).segments →
      pagePrecedes (segno * SLRU_PAGES_PER_SEGMENT) cutoffPage = true ∧
      pagePrecedes (segno * SLRU_PAGES_PER_SEGMENT +
        SLRU_PAGES_PER_SEGMENT - 1) cutoffPage = true) ∧
    (pagePrecedes st.latestPageNumber cutoffPage = false →
      ∀ p : Nat,
        SlruMayDeleteSegment pagePrecedes
          (p / SLRU_PAGES_PER_SEGMENT * SLRU_PAGES_PER_SEGMENT)
          cutoffPage = true →
        SimpleLruDoesPhysicalPageExist
          (SimpleLruTruncate pagePrecedes cutoffPage st) p = false) := by
  refine ⟨fun h => ?_, fun segno hmem hdel => ?_, fun hlatest p hmay => ?_⟩
  · simp [SimpleLruTruncate, h]
  · by_cases h : pagePrecedes st.latestPageNumber cutoffPage = true
    · simp [SimpleLruTruncate, h] at hdel
      exact absurd hmem hdel
    · simp only [SimpleLruTruncate, h, Bool.false_eq_true, if_false,
        slruDeleteCutoffSegments] at hdel
      simp only [List.mem_filter, hmem, true_and, Bool.not_eq_true,
        Bool.not_eq_false] at hdel
      simp only [SlruMayDeleteSegment] at hdel
      simp at hdel
      exact hdel
  · simp only [SimpleLruTruncate, hlatest, Bool.false_eq_true, if_false,
      SimpleLruDoesPhysicalPageExist, slruDeleteCutoffSegments,
      decide_eq_false_iff_not]
    intro hmemf
    rw [List.mem_filter] at hmemf
    rw [hmay] at hmemf
    simp at hmemf

/-- MultiXactOffsetPagePrecedes from multixact.c: compare two offsets-log
page numbers through representative MultiXactIds, requiring the whole
target page to precede. -/
def MultiXactOffsetPagePrecedes (page1 page2 : Nat) : Bool :=
  let multi1 := u64 (page1 * MULTIXACT_OFFSETS_PER_PAGE +
    (FirstMultiXactId + 1))
  let multi2 := u64 (page2 * MULTIXACT_OFFSETS_PER_PAGE +
    (FirstMultiXactId + 1))
  MultiXactIdPrecedes multi1 multi2 &&
    MultiXactIdPrecedes multi1
      (u64 (multi2 + MULTIXACT_OFFSETS_PER_PAGE - 1))

/-- MultiXactMemberPagePrecedes from multixact.c: compare two member-log
page numbers through representative member offsets. -/
def MultiXactMemberPagePrecedes (page1 page2 : Nat) : Bool :=
  let offset1 := u64 (page1 * MULTIXACT_MEMBERS_PER_PAGE)
  let offset2 := u64 (page2 * MULTIXACT_MEMBERS_PER_PAGE)
  MultiXactOffsetPrecedes offset1 offset2 &&
    MultiXactOffsetPrecedes offset1
      (u64 (offset2 + MULTIXACT_MEMBERS_PER_PAGE - 1))

/-- Witness for C3: the offsets-log circular page order, latest page 96,
cutoff 64: segment 0 (pages 0..31) is deleted, and page 5 no longer
exists. -/
theorem C3_simpleLruTruncate_safety_witness :
    (let st : SlruState :=
      { latestPageNumber := 96,
        slots := [{ status := SlruPageStatus.valid, dirty := false,
                    pageno := 5, lruCount := 0 }],
        segments := [0, 2, 3] }
     (0 : Nat) ∈ st.segments ∧
     MultiXactOffsetPagePrecedes 96 64 = false ∧
     SimpleLruDoesPhysicalPageExist
       (SimpleLruTruncate MultiXactOffsetPagePrecedes 64 st) 5 = false) := by
  refine ⟨by decide, by decide, ?_⟩
  exact (C3_simpleLruTruncate_safety MultiXactOffsetPagePrecedes 64
    { latestPageNumber := 96,
      slots := [{ status := SlruPageStatus.valid, dirty := false,
                  pageno := 5, lruCount := 0 }],
      segments := [0, 2, 3] }).2.2 (by decide) 5 (by decide)

/-! ## TruncateMultiXact (multixact.c) -/

def MaxMultiXactId : Nat := M64 - 1

def MaxMultiXactOffset : Nat := M64 - 1

/-- PreviousMultiXactId from multixact.c: step back one multixact,
wrapping from FirstMultiXactId to MaxMultiXactId. -/
def PreviousMultiXactId (multi : Nat) : Nat :=
  if multi = FirstMultiXactId then MaxMultiXactId else multi - 1

/-- The pieces of MultiXactStateData and on-disk state that
TruncateMultiXact reads and writes: the shared counters and oldest
bounds, the two segment directories, the offsets-log latest page marker,
and the offsets-log content (multi to stored starting offset). -/
structure MultiXactTruncState where
  nextMXact : Nat
  nextOffset : Nat
  oldestMultiXactId : Nat
  oldestMultiXactDB : Nat
  offsetsLatestPage : Nat
  offsetsSegments : List Nat
  membersSegments : List Nat
  offsetsData : Nat → Nat

/-- Observable steps of TruncateMultiXact, in program order. -/
inductive TruncEvent where
  | startCritSection
  | walLogTruncation
  | updateOldestBounds
  | deleteMemberSegment (segno : Nat)
  | deleteOffsetSegment (segno : Nat)
  | endCritSection
  deriving Repr, DecidableEq

/-- find_multixact_start from multixact.c: after flushing dirty pages,
answer false when the offsets page of the multixact does not physically
exist on disk, else read its stored starting member offset. -/
def find_multixact_start (st : MultiXactTruncState) (multi : Nat) :
    Option Nat :=
  let pageno := MultiXactIdToOffsetPage multi
  if (pageno / SLRU_PAGES_PER_SEGMENT) ∈ st.offsetsSegments then
    some (st.offsetsData multi)
  else none

/-- SlruScanDirectory with SlruScanDirCbFindEarliest: fold over the
directory keeping the earliest segment-start page per the offsets-log
page order; none when the directory is empty (earliestExistingPage
stays -1). -/
def findEarliestSegPage (segments : List Nat) : Option Nat :=
  segments.foldl (fun acc segno =>
    match acc with
    | none => some (segno * SLRU_PAGES_PER_SEGMENT)
    | some e =>
        if MultiXactOffsetPagePrecedes (segno * SLRU_PAGES_PER_SEGMENT) e
        then some (segno * SLRU_PAGES_PER_SEGMENT) else some e) none

/-- The earliest multixact physically present, as TruncateMultiXact
computes it: earliestExistingPage * MULTIXACT_OFFSETS_PER_PAGE evaluated
in uint64 (so the empty-directory value -1 becomes a huge wrapped
value), then clamped up to FirstMultiXactId. -/
def truncEarliest (st : MultiXactTruncState) : Nat :=
  let earliest0 :=
    match findEarliestSegPage st.offsetsSegments with
    | none => u64 (M64 - MULTIXACT_OFFSETS_PER_PAGE)
    | some segpage => u64 (segpage * MULTIXACT_OFFSETS_PER_PAGE)
  if earliest0 < FirstMultiXactId then FirstMultiXactId else earliest0

/-- Offset of the old truncation bound: the live nextOffset when there
are no multixacts at all, else the stored start of oldestMultiXactId. -/
def truncOldBoundOffset (st : MultiXactTruncState) : Option Nat :=
  if st.oldestMultiXactId == st.nextMXact then some st.nextOffset
  else find_multixact_start st st.oldestMultiXactId

/-- Offset of the new truncation bound, symmetrically. -/
def truncNewBoundOffset (newOldestMulti : Nat) (st : MultiXactTruncState) :
    Option Nat :=
  if newOldestMulti == st.nextMXact then some st.nextOffset
  else find_multixact_start st newOldestMulti

/-- The member-log segments PerformMembersTruncation walks: from the
segment of the old bound up to but excluding the segment of the new
bound, wrapping past the maximum segment number. -/
def wrapSegRange (startseg endseg maxseg : Nat) : List Nat :=
  if startseg ≤ endseg then List.range' startseg (endseg - startseg)
  else List.range' startseg (maxseg + 1 - startseg) ++ List.range' 0 endseg

/-- PerformMembersTruncation from multixact.c: delete every member
segment from the old bound up to, but excluding, the segment of the new
bound.  Returns the surviving directory and the deletion events. -/
def PerformMembersTruncation (oldestOffset newOldestOffset : Nat)
    (segments : List Nat) : List Nat × List TruncEvent :=
  let maxsegment := MXOffsetToMemberSegment MaxMultiXactOffset
  let todelete := wrapSegRange (MXOffsetToMemberSegment oldestOffset)
    (MXOffsetToMemberSegment newOldestOffset) maxsegment
  (segments.filter (fun s => !todelete.contains s),
   todelete.map TruncEvent.deleteMemberSegment)

/-- PerformOffsetsTruncation from multixact.c: SimpleLruTruncate of the
offsets log at the page of PreviousMultiXactId(newOldestMulti); the
latest-page guard of SimpleLruTruncate applies.  Returns the surviving
directory and the deletion events. -/
def PerformOffsetsTruncation (newOldestMulti latestPage : Nat)
    (segments : List Nat) : List Nat × List TruncEvent :=
  let cutoffPage := MultiXactIdToOffsetPage (PreviousMultiXactId newOldestMulti)
  if MultiXactOffsetPagePrecedes latestPage cutoffPage then (segments, [])
  else
    (slruDeleteCutoffSegments MultiXactOffsetPagePrecedes cutoffPage segments,
     (segments.filter (fun segno =>
        SlruMayDeleteSegment MultiXactOffsetPagePrecedes
          (segno * SLRU_PAGES_PER_SEGMENT) cutoffPage)).map
       TruncEvent.deleteOffsetSegment)

/-- TruncateMultiXact from multixact.c, under MultiXactTruncationLock.
Returns the state left behind and the event trace of the truncation
step. -/
def TruncateMultiXact (newOldestMulti newOldestMultiDB : Nat)
    (st : MultiXactTruncState) : MultiXactTruncState × List TruncEvent :=
  if MultiXactIdPrecedesOrEquals newOldestMulti st.oldestMultiXactId then
    (st, [])
  else if MultiXactIdPrecedes st.oldestMultiXactId (truncEarliest st) then
    (st, [])
  else
    match truncOldBoundOffset st with
    | none => (st, [])
    | some oldestOffset =>
      match truncNewBoundOffset newOldestMulti st with
      | none => (st, [])
      | some newOldestOffset =>
        let st1 := { st with oldestMultiXactId := newOldestMulti,
                             oldestMultiXactDB := newOldestMultiDB }
        let mres := PerformMembersTruncation oldestOffset newOldestOffset
          st1.membersSegments
        let ores := PerformOffsetsTruncation newOldestMulti
          st1.offsetsLatestPage st1.offsetsSegments
        ({ st1 with membersSegments := mres.1, offsetsSegments := ores.1 },
         [TruncEvent.startCritSection, TruncEvent.walLogTruncation,
          TruncEvent.updateOldestBounds] ++
           mres.2 ++ ores.2 ++ [TruncEvent.endCritSection])

/-- C5: TruncateMultiXact changes nothing when the new bound
precedes-or-equals the current oldest bound, or when the oldest bound
precedes the earliest multixact physically on disk; when the starting
offset of either bound cannot be resolved from disk the whole step is
skipped with no state change; and when truncation proceeds, the
in-memory oldest bounds are updated inside the critical section before
any segment deletion, and every member-log deletion happens before every
offset-log deletion. -/
theorem C5_truncateMultiXact_protocol (newOldestMulti db : Nat)
    (st : MultiXactTruncState) :
    (MultiXactIdPrecedesOrEquals newOldestMulti st.oldestMultiXactId = true →
      TruncateMultiXact newOldestMulti db st = (st, [])) ∧
    (MultiXactIdPrecedesOrEquals newOldestMulti st.oldestMultiXactId = false →
      MultiXactIdPrecedes st.oldestMultiXactId (truncEarliest st) = true →
      TruncateMultiXact newOldestMulti db st = (st, [])) ∧
    (MultiXactIdPrecedesOrEquals newOldestMulti st.oldestMultiXactId = false →
      MultiXactIdPrecedes st.oldestMultiXactId (truncEarliest st) = false →
      (truncOldBoundOffset st = none ∨
       truncNewBoundOffset newOldestMulti st = none) →
      TruncateMultiXact newOldestMulti db st = (st, [])) ∧
    (∀ oldOff newOff,
      MultiXactIdPrecedesOrEquals newOldestMulti st.oldestMultiXactId = false →
      MultiXactIdPrecedes st.oldestMultiXactId (truncEarliest st) = false →
      truncOldBoundOffset st = some oldOff →
      truncNewBoundOffset newOldestMulti st = some newOff →
      (TruncateMultiXact newOldestMulti db st).1.oldestMultiXactId =
        newOldestMulti ∧
      (TruncateMultiXact newOldestMulti db st).1.oldestMultiXactDB = db ∧
      ∃ msegs osegs : List Nat,
        (TruncateMultiXact newOldestMulti db st).2 =
          [TruncEvent.startCritSection, TruncEvent.walLogTruncation,
           TruncEvent.updateOldestBounds] ++
            msegs.map TruncEvent.deleteMemberSegment ++
            osegs.map TruncEvent.deleteOffsetSegment ++
            [TruncEvent.endCritSection]) := by
  refine ⟨fun h1 => ?_, fun h1 h2 => ?_, fun h1 h2 h3 => ?_,
    fun oldOff newOff h1 h2 h3 h4 => ?_⟩
  · simp [TruncateMultiXact, h1]
  · simp [TruncateMultiXact, h1, h2]
  · rcases h3 with h3 | h3 <;>
      simp [TruncateMultiXact, h1, h2, h3] <;>
      (cases hx : truncOldBoundOffset st <;> simp [hx, h3])
  · simp only [TruncateMultiXact, h1, h2, h3, h4, Bool.false_eq_true,
      if_false]
    refine ⟨by trivial, by trivial, ?_⟩
    refine ⟨(wrapSegRange (MXOffsetToMemberSegment oldOff)
        (MXOffsetToMemberSegment newOff)
        (MXOffsetToMemberSegment MaxMultiXactOffset)), ?_⟩
    by_cases hg : MultiXactOffsetPagePrecedes st.offsetsLatestPage
        (MultiXactIdToOffsetPage (PreviousMultiXactId newOldestMulti)) = true
    · exact ⟨[], by simp [PerformMembersTruncation,
        PerformOffsetsTruncation, hg]⟩
    · refine ⟨st.offsetsSegments.filter (fun segno =>
        SlruMayDeleteSegment MultiXactOffsetPagePrecedes
          (segno * SLRU_PAGES_PER_SEGMENT)
          (MultiXactIdToOffsetPage (PreviousMultiXactId newOldestMulti))), ?_⟩
      simp only [Bool.not_eq_true] at hg
      simp [PerformMembersTruncation, PerformOffsetsTruncation, hg]

/-- Witness for C5: a concrete truncation from oldest 2000 to 5000 with
one offsets segment on disk updates both in-memory bounds. -/
theorem C5_truncateMultiXact_protocol_witness :
    (let st : MultiXactTruncState :=
      { nextMXact := 10000, nextOffset := 500000,
        oldestMultiXactId := 2000, oldestMultiXactDB := 1,
        offsetsLatestPage := 9, offsetsSegments := [0],
        membersSegments := [0, 1, 2], offsetsData := fun m => m }
     (TruncateMultiXact 5000 42 st).1.oldestMultiXactId = 5000 ∧
     (TruncateMultiXact 5000 42 st).1.oldestMultiXactDB = 42) :=
  have h := (C5_truncateMultiXact_protocol 5000 42
    { nextMXact := 10000, nextOffset := 500000,
      oldestMultiXactId := 2000, oldestMultiXactDB := 1,
      offsetsLatestPage := 9, offsetsSegments := [0],
      membersSegments := [0, 1, 2],
      offsetsData := fun m => m }).2.2.2 2000 5000
    (by decide) (by decide) (by decide) (by decide)
  ⟨h.1, h.2.1⟩

/-! ## GetNewMultiXactId and GetMultiXactIdMembers (multixact.c) -/

/-- The shared counters GetNewMultiXactId reads and advances under
MultiXactGenLock. -/
structure MultiXactGenState where
  nextMXact : Nat
  nextOffset : Nat
  deriving Repr, DecidableEq

/-- GetNewMultiXactId from multixact.c (counter part): fix a
wrapped-around nextMXact, assign the MXID, reserve the member space --
never returning zero as a starting offset: when nextOffset is zero the
offset returned is one and one extra member slot (slot zero) is
allocated -- then advance both counters in uint64 arithmetic.  The
vac-limit branch only signals and re-reads, and the file-extension calls
do not touch these counters, so both drop out of this state.  Returns
(multi, starting offset, new state). -/
def GetNewMultiXactId (nmembers : Nat) (st : MultiXactGenState) :
    Nat × Nat × MultiXactGenState :=
  let result := if st.nextMXact < FirstMultiXactId then FirstMultiXactId
    else st.nextMXact
  let nextOffset := st.nextOffset
  let offsetAndCount : Nat × Nat :=
    if nextOffset == 0 then (1, nmembers + 1) else (nextOffset, nmembers)
  (result, offsetAndCount.1,
   { nextMXact := u64 (result + 1),
     nextOffset := u64 (nextOffset + offsetAndCount.2) })

/-- The state GetMultiXactIdMembers reads: the shared counters and
bounds, this backend's oldest-visible entry and local cache, and the
SLRU content of the offsets log and of the member log (xid and status
stored at each member offset). -/
structure MultiXactReadState where
  nextMXact : Nat
  nextOffset : Nat
  oldestMultiXactId : Nat
  oldestVisibleMXactId : Nat
  cache : List (Nat × List (Nat × Nat))
  offsetsData : Nat → Nat
  membersXid : Nat → Nat
  membersStatus : Nat → Nat

/-- Outcomes of GetMultiXactIdMembers: the early -1 returns, the cached
return, the three ereport paths, the condition-variable sleep of the
retry loop, and a member list read from the SLRU. -/
inductive MembersResult where
  | noMembers
  | cachedMembers (ms : List (Nat × Nat))
  | errorTooOld
  | errorNotCreated
  | errorZeroOffset
  | sleepRetry
  | members (ms : List (Nat × Nat))
  deriving Repr, DecidableEq

/-- Observable lock/error steps of GetMultiXactIdMembers. -/
inductive MXReadEvent where
  | acquireGenLockShared
  | releaseGenLock
  | raiseError
  | sleepOnCV
  deriving Repr, DecidableEq

/-- mXactCacheGetById from multixact.c, over the backend-local cache. -/
def mXactCacheGetById (cache : List (Nat × List (Nat × Nat)))
    (multi : Nat) : Option (List (Nat × Nat)) :=
  match cache.find? (fun e => e.1 == multi) with
  | none => none
  | some e => some e.2

/-- The member-reading loop of GetMultiXactIdMembers: walk length member
slots starting at offset (wrapping in uint64), skipping any slot whose
stored transaction id is the invalid zero value (reserved slot zero). -/
def readMultiXactMembers (st : MultiXactReadState) (offset length : Nat) :
    List (Nat × Nat) :=
  (List.range length).filterMap (fun i =>
    let off := u64 (offset + i)
    if st.membersXid off == 0 then none
    else some (st.membersXid off, st.membersStatus off))

/-- GetMultiXactIdMembers from multixact.c.  The retry loop after a
condition-variable sleep re-runs the same lookup; one observation of it
is modelled, the sleep being reported as the sleepRetry outcome.
Returns the outcome and the trace of lock and error events. -/
def GetMultiXactIdMembers (multi : Nat) (from_pgupgrade isLockOnly : Bool)
    (st : MultiXactReadState) : MembersResult × List MXReadEvent :=
  if !MultiXactIdIsValid multi || from_pgupgrade then
    (MembersResult.noMembers, [])
  else
    match mXactCacheGetById st.cache multi with
    | some ms => (MembersResult.cachedMembers ms, [])
    | none =>
      if isLockOnly && MultiXactIdPrecedes multi st.oldestVisibleMXactId then
        (MembersResult.noMembers, [])
      else
        let oldestMXact := st.oldestMultiXactId
        let nextMXact := st.nextMXact
        let nextOffset := st.nextOffset
        let tr := [MXReadEvent.acquireGenLockShared, MXReadEvent.releaseGenLock]
        if MultiXactIdPrecedes multi oldestMXact then
          (MembersResult.errorTooOld, tr ++ [MXReadEvent.raiseError])
        else if !MultiXactIdPrecedes multi nextMXact then
          (MembersResult.errorNotCreated, tr ++ [MXReadEvent.raiseError])
        else
          let offset := st.offsetsData multi
          if offset == 0 then
            (MembersResult.errorZeroOffset, tr ++ [MXReadEvent.raiseError])
          else
            let tmpMXact0 := u64 (multi + 1)
            if nextMXact == tmpMXact0 then
              (MembersResult.members
                (readMultiXactMembers st offset (sub64 nextOffset offset)), tr)
            else
              let tmpMXact := if tmpMXact0 < FirstMultiXactId then
                  FirstMultiXactId else tmpMXact0
              let nextMXOffset := st.offsetsData tmpMXact
              if nextMXOffset == 0 then
                (MembersResult.sleepRetry, tr ++ [MXReadEvent.sleepOnCV])
              else
                (MembersResult.members
                  (readMultiXactMembers st offset
                    (sub64 nextMXOffset offset)), tr)

/-- C4: GetNewMultiXactId never returns zero as a starting member
offset, consuming slot zero when nextOffset is zero so that the next
reservation still starts exactly nmembers past the returned offset
(contiguity); and GetMultiXactIdMembers treats a zero offset stored for
the requested multixact as corruption (error), treats a zero offset
stored for the next multixact as a pending write (sleeps on the
condition variable instead of computing a count), and never returns a
member carrying the invalid zero transaction id. -/
theorem C4_zero_offset_discipline :
    (∀ nmembers : Nat, ∀ st : MultiXactGenState,
      (GetNewMultiXactId nmembers st).2.1 ≠ 0 ∧
      (st.nextOffset = 0 → (GetNewMultiXactId nmembers st).2.1 = 1) ∧
      (GetNewMultiXactId nmembers st).2.2.nextOffset =
        u64 ((GetNewMultiXactId nmembers st).2.1 + nmembers)) ∧
    (∀ multi : Nat, ∀ isLockOnly : Bool, ∀ st : MultiXactReadState,
      MultiXactIdIsValid multi = true →
      mXactCacheGetById st.cache multi = none →
      (isLockOnly && MultiXactIdPrecedes multi st.oldestVisibleMXactId) =
        false →
      MultiXactIdPrecedes multi st.oldestMultiXactId = false →
      MultiXactIdPrecedes multi st.nextMXact = true →
      (st.offsetsData multi = 0 →
        (GetMultiXactIdMembers multi false isLockOnly st).1 =
          MembersResult.errorZeroOffset) ∧
      (st.offsetsData multi ≠ 0 →
        (st.nextMXact == u64 (multi + 1)) = false →
        st.offsetsData (if u64 (multi + 1) < FirstMultiXactId then
          FirstMultiXactId else u64 (multi + 1)) = 0 →
        (GetMultiXactIdMembers multi false isLockOnly st).1 =
          MembersResult.sleepRetry)) ∧
    (∀ multi : Nat, ∀ from_pgupgrade isLockOnly : Bool,
      ∀ st : MultiXactReadState, ∀ ms : List (Nat × Nat),
      (GetMultiXactIdMembers multi from_pgupgrade isLockOnly st).1 =
        MembersResult.members ms →
      ∀ m ∈ ms, m.1 ≠ 0) := by
  refine ⟨fun nmembers st => ?_, fun multi isLockOnly st hval hcache hlock
    hold hnext => ?_, fun multi pg lockOnly st ms hms m hm => ?_⟩
  · simp only [GetNewMultiXactId]
    by_cases h0 : st.nextOffset == 0
    · simp only [h0, if_true]
      refine ⟨by simp, fun _ => by simp, ?_⟩
      simp only [beq_iff_eq] at h0
      rw [h0]
      simp [u64, Nat.add_comm]
    · simp only [h0, if_false]
      simp only [beq_iff_eq] at h0
      exact ⟨h0, fun hc => absurd hc h0, rfl⟩
  · refine ⟨fun hz => ?_, fun hnz hne hznext => ?_⟩
    · simp [GetMultiXactIdMembers, hval, hcache, hlock, hold, hnext, hz]
    · simp [GetMultiXactIdMembers, hval, hcache, hlock, hold, hnext, hnz,
        hne, hznext]
  · simp only [GetMultiXactIdMembers] at hms
    repeat' split at hms
    all_goals simp at hms
    all_goals
      subst hms
      simp only [readMultiXactMembers, List.mem_filterMap] at hm
      rcases hm with ⟨i, _, hf⟩
      split at hf
      · exact Option.noConfusion hf
      · rcases Option.some.inj hf with rfl
        simp_all

/-- Witness for C4: with nextOffset zero, the reservation returns
starting offset 1 and leaves nextOffset contiguous, and a zero stored
offset for multixact 100 raises the corruption error. -/
theorem C4_zero_offset_discipline_witness :
    (GetNewMultiXactId 5 { nextMXact := 1, nextOffset := 0 }).2.1 = 1 ∧
    (GetNewMultiXactId 5 { nextMXact := 1, nextOffset := 0 }).2.2.nextOffset
      = 6 ∧
    (let st : MultiXactReadState :=
      { nextMXact := 1000, nextOffset := 50, oldestMultiXactId := 10,
        oldestVisibleMXactId := 10, cache := [],
        offsetsData := fun _ => 0, membersXid := fun _ => 0,
        membersStatus := fun _ => 0 }
     (GetMultiXactIdMembers 100 false false st).1 =
       MembersResult.errorZeroOffset) :=
  have h1 := (C4_zero_offset_discipline.1 5 { nextMXact := 1, nextOffset := 0 })
  have h2 := (C4_zero_offset_discipline.2.1 100 false
    { nextMXact := 1000, nextOffset := 50, oldestMultiXactId := 10,
      oldestVisibleMXactId := 10, cache := [],
      offsetsData := fun _ => 0, membersXid := fun _ => 0,
      membersStatus := fun _ => 0 }
    (by decide) (by decide) (by decide) (by decide) (by decide)).1 rfl
  ⟨h1.2.1 rfl, by rw [h1.2.2, h1.2.1 rfl]; decide, h2⟩

/-- C7: with the early returns out of the way (valid multixact, not from
pg_upgrade, missed the local cache, not short-circuited by the lock-only
fast path), GetMultiXactIdMembers raises the too-old error for a
multixact preceding the oldest bound and the distinct not-yet-created
error for one at-or-after nextMXact; the oldest and next bounds are
snapshotted under a single shared MultiXactGenLock acquisition before
the lookup, and no execution path acquires that lock more than once. -/
theorem C7_getMultiXactIdMembers_range_errors
    (multi : Nat) (isLockOnly : Bool) (st : MultiXactReadState)
    (hval : MultiXactIdIsValid multi = true)
    (hcache : mXactCacheGetById st.cache multi = none)
    (hlock : (isLockOnly &&
      MultiXactIdPrecedes multi st.oldestVisibleMXactId) = false) :
    (MultiXactIdPrecedes multi st.oldestMultiXactId = true →
      GetMultiXactIdMembers multi false isLockOnly st =
        (MembersResult.errorTooOld,
         [MXReadEvent.acquireGenLockShared, MXReadEvent.releaseGenLock,
          MXReadEvent.raiseError])) ∧
    (MultiXactIdPrecedes multi st.oldestMultiXactId = false →
      MultiXactIdPrecedes multi st.nextMXact = false →
      GetMultiXactIdMembers multi false isLockOnly st =
        (MembersResult.errorNotCreated,
         [MXReadEvent.acquireGenLockShared, MXReadEvent.releaseGenLock,
          MXReadEvent.raiseError])) ∧
    (MembersResult.errorTooOld ≠ MembersResult.errorNotCreated) ∧
    (∀ pg lo : Bool,
      ((GetMultiXactIdMembers multi pg lo st).2.count
        MXReadEvent.acquireGenLockShared) ≤ 1) := by
  refine ⟨fun h1 => ?_, fun h1 h2 => ?_, by simp, fun pg lo => ?_⟩
  · simp [GetMultiXactIdMembers, hval, hcache, hlock, h1]
  · simp [GetMultiXactIdMembers, hval, hcache, hlock, h1, h2]
  · simp only [GetMultiXactIdMembers]
    repeat' split
    all_goals simp [List.count_cons, List.count_nil]

/-- Witness for C7: multixact 5 against oldest bound 100 raises the
too-old error after the single bounds snapshot. -/
theorem C7_getMultiXactIdMembers_range_errors_witness :
    GetMultiXactIdMembers 5 false false
      { nextMXact := 1000, nextOffset := 50, oldestMultiXactId := 100,
        oldestVisibleMXactId := 100, cache := [],
        offsetsData := fun _ => 0, membersXid := fun _ => 0,
        membersStatus := fun _ => 0 } =
      (MembersResult.errorTooOld,
       [MXReadEvent.acquireGenLockShared, MXReadEvent.releaseGenLock,
        MXReadEvent.raiseError]) :=
  (C7_getMultiXactIdMembers_range_errors 5 false
    { nextMXact := 1000, nextOffset := 50, oldestMultiXactId := 100,
      oldestVisibleMXactId := 100, cache := [],
      offsetsData := fun _ => 0, membersXid := fun _ => 0,
      membersStatus := fun _ => 0 }
    (by decide) (by decide) (by decide)).1 (by decide)

/-! ## SlruSelectLRUPage (slru.c)

One bank of the buffer pool: its LRU counter, the latest-page marker
(shared across banks but read atomically per bank operation), and its
slots. -/

structure SlruBankState where
  curLruCount : Nat
  latestPageNumber : Nat
  slots : List SlruSlot
  deriving Repr, DecidableEq

/-- Slots of the bank paired with their slot numbers, in scan order. -/
def enumSlots : Nat → List SlruSlot → List (Nat × SlruSlot)
  | _, [] => []
  | k, s :: rest => (k, s) :: enumSlots (k + 1) rest

/-- Outcome of one scan over the bank: the first EMPTY slot found, or
the best valid and best in-progress candidates (slot number, LRU delta,
page number). -/
inductive ScanOutcome where
  | emptySlot (slotno : Nat)
  | scanned (bestValid : Option (Nat × Nat × Nat))
            (bestInvalid : Option (Nat × Nat × Nat))
  deriving Repr, DecidableEq

/-- The best-candidate update of the scan loop: larger LRU delta wins,
ties broken by the logically older page per the page-precedes function. -/
def updateBest (prec : Nat → Nat → Bool) (best : Option (Nat × Nat × Nat))
    (idx delta pn : Nat) : Option (Nat × Nat × Nat) :=
  match best with
  | none => some (idx, delta, pn)
  | some (bidx, bdelta, bpn) =>
    if delta > bdelta || (delta == bdelta && prec pn bpn) then
      some (idx, delta, pn)
    else some (bidx, bdelta, bpn)

/-- The scan loop of SlruSelectLRUPage: return the first EMPTY slot;
skip the slot holding the latest page number; accumulate the best VALID
and the best in-progress candidates.  The LRU delta is cur_count minus
the slot count, clamped at zero exactly as the code clamps negative
deltas. -/
def scanBankSlots (latest curCount : Nat) (prec : Nat → Nat → Bool) :
    List (Nat × SlruSlot) → Option (Nat × Nat × Nat) →
    Option (Nat × Nat × Nat) → ScanOutcome
  | [], bv, bi => ScanOutcome.scanned bv bi
  | (idx, slot) :: rest, bv, bi =>
    if slot.status == SlruPageStatus.empty then ScanOutcome.emptySlot idx
    else if slot.pageno == latest then
      scanBankSlots latest curCount prec rest bv bi
    else if slot.status == SlruPageStatus.valid then
      scanBankSlots latest curCount prec rest
        (updateBest prec bv idx (curCount - slot.lruCount) slot.pageno) bi
    else
      scanBankSlots latest curCount prec rest bv
        (updateBest prec bi idx (curCount - slot.lruCount) slot.pageno)

/-- Replace the slot at a given slot number. -/
def modifySlot : Nat → (SlruSlot → SlruSlot) → List SlruSlot → List SlruSlot
  | _, _, [] => []
  | 0, f, s :: rest => f s :: rest
  | i + 1, f, s :: rest => s :: modifySlot i f rest

/-- SimpleLruWaitIO as the loop sees it on resumption: the I/O on the
slot has completed, leaving the page VALID and clean. -/
def waitIOSlot (i : Nat) (st : SlruBankState) : SlruBankState :=
  { st with slots := modifySlot i (fun s =>
      { s with status := SlruPageStatus.valid, dirty := false }) st.slots }

/-- SlruInternalWritePage as the loop sees it on resumption: the page
has been written out, VALID and clean. -/
def writeSlot (i : Nat) (st : SlruBankState) : SlruBankState :=
  { st with
    slots := modifySlot i (fun s => { s with dirty := false }) st.slots }

/-- What one pass of the SlruSelectLRUPage loop body decides to do. -/
inductive SelectStep where
  | done (slotno : Nat)
  | wait (slotno : Nat)
  | write (slotno : Nat)
  | stuck
  deriving Repr, DecidableEq

/-- One pass of the SlruSelectLRUPage loop body: return a slot already
holding the page (any non-EMPTY state); else bump the bank LRU counter
and scan; return the first EMPTY slot; if every candidate is mid-I/O,
wait on the least recently used one; if the chosen victim is clean,
return it; else write it out and restart. -/
def selectStep (prec : Nat → Nat → Bool) (pageno : Nat)
    (st : SlruBankState) : SelectStep × SlruBankState :=
  match (enumSlots 0 st.slots).find? (fun e =>
      e.2.status != SlruPageStatus.empty && e.2.pageno == pageno) with
  | some e => (SelectStep.done e.1, st)
  | none =>
    let curCount := st.curLruCount
    let st1 : SlruBankState := { st with curLruCount := curCount + 1 }
    match scanBankSlots st.latestPageNumber curCount prec
        (enumSlots 0 st.slots) none none with
    | ScanOutcome.emptySlot i => (SelectStep.done i, st1)
    | ScanOutcome.scanned none none => (SelectStep.stuck, st1)
    | ScanOutcome.scanned none (some bi) => (SelectStep.wait bi.1, st1)
    | ScanOutcome.scanned (some bv) _ =>
      match st.slots.get? bv.1 with
      | none => (SelectStep.stuck, st1)
      | some slot =>
        if !slot.dirty then (SelectStep.done bv.1, st1)
        else (SelectStep.write bv.1, st1)

/-- SlruSelectLRUPage from slru.c as a fuelled loop: the restart after a
wait or a synchronous victim write re-runs the whole pass, exactly as
the outer for loop does. -/
def SlruSelectLRUPage (prec : Nat → Nat → Bool) :
    Nat → Nat → SlruBankState → Option (Nat × SlruBankState)
  | 0, _, _ => none
  | fuel + 1, pageno, st =>
    match selectStep prec pageno st with
    | (SelectStep.done i, st1) => some (i, st1)
    | (SelectStep.wait i, st1) =>
      SlruSelectLRUPage prec fuel pageno (waitIOSlot i st1)
    | (SelectStep.write i, st1) =>
      SlruSelectLRUPage prec fuel pageno (writeSlot i st1)
    | (SelectStep.stuck, _) => none

/-- SlruRecentlyUsed from slru.c: bump the bank counter and stamp the
slot when their counts differ. -/
def SlruRecentlyUsedCounts (curLruCount slotLruCount : Nat) : Nat × Nat :=
  if curLruCount != slotLruCount then (curLruCount + 1, curLruCount + 1)
  else (curLruCount, slotLruCount)

/-- SimpleLruZeroPage from slru.c: claim a slot via SlruSelectLRUPage,
mark it VALID and dirty with the new page number, stamp it recently
used, zero the buffer, and record the page as the latest page number. -/
def SimpleLruZeroPage (prec : Nat → Nat → Bool) (fuel pageno : Nat)
    (st : SlruBankState) : Option (Nat × SlruBankState) :=
  match SlruSelectLRUPage prec fuel pageno st with
  | none => none
  | some (i, st1) =>
    match st1.slots.get? i with
    | none => none
    | some slot =>
      let counts := SlruRecentlyUsedCounts st1.curLruCount slot.lruCount
      some (i, { curLruCount := counts.1,
                 latestPageNumber := pageno,
                 slots := modifySlot i (fun _ =>
                   { status := SlruPageStatus.valid, dirty := true,
                     pageno := pageno, lruCount := counts.2 }) st1.slots })

theorem enumSlots_mem (l : List SlruSlot) :
    ∀ (k i : Nat) (s : SlruSlot),
      (i, s) ∈ enumSlots k l → k ≤ i ∧ l.get? (i - k) = some s := by
  induction l with
  | nil => intro k i s h; simp [enumSlots] at h
  | cons a rest ih =>
    intro k i s h
    simp only [enumSlots, List.mem_cons] at h
    rcases h with h | h
    · injection h with h1 h2
      subst h1
      subst h2
      simp
    · obtain ⟨hk, hg⟩ := ih (k + 1) i s h
      refine ⟨by omega, ?_⟩
      have he : i - k = (i - (k + 1)) + 1 := by omega
      rw [he]
      simpa using hg

theorem scanBankSlots_emptySlot (latest curCount : Nat)
    (prec : Nat → Nat → Bool) :
    ∀ (pairs : List (Nat × SlruSlot)) bv bi i,
      scanBankSlots latest curCount prec pairs bv bi =
        ScanOutcome.emptySlot i →
      ∃ slot, (i, slot) ∈ pairs ∧ slot.status = SlruPageStatus.empty := by
  intro pairs
  induction pairs with
  | nil => intro bv bi i h; simp [scanBankSlots] at h
  | cons p rest ih =>
    intro bv bi i h
    obtain ⟨idx, slot⟩ := p
    simp only [scanBankSlots] at h
    split at h
    · rename_i hemp
      injection h with h1
      subst h1
      exact ⟨slot, by simp, by simpa using hemp⟩
    · split at h
      · obtain ⟨s, hm, hs⟩ := ih _ _ _ h
        exact ⟨s, List.mem_cons_of_mem _ hm, hs⟩
      · split at h
        · obtain ⟨s, hm, hs⟩ := ih _ _ _ h
          exact ⟨s, List.mem_cons_of_mem _ hm, hs⟩
        · obtain ⟨s, hm, hs⟩ := ih _ _ _ h
          exact ⟨s, List.mem_cons_of_mem _ hm, hs⟩

theorem scanBankSlots_bestValid (latest curCount : Nat)
    (prec : Nat → Nat → Bool) :
    ∀ (pairs : List (Nat × SlruSlot)) bv bi bv2 bi2,
      scanBankSlots latest curCount prec pairs bv bi =
        ScanOutcome.scanned bv2 bi2 →
      ∀ i d pn, bv2 = some (i, d, pn) →
        bv = some (i, d, pn) ∨
        ∃ slot, (i, slot) ∈ pairs ∧
          slot.status = SlruPageStatus.valid ∧ slot.pageno = pn ∧
          pn ≠ latest := by
  intro pairs
  induction pairs with
  | nil =>
    intro bv bi bv2 bi2 h i d pn hbv
    simp only [scanBankSlots] at h
    injection h with h1 h2
    subst h1
    exact Or.inl hbv
  | cons p rest ih =>
    intro bv bi bv2 bi2 h i d pn hbv
    obtain ⟨idx, slot⟩ := p
    simp only [scanBankSlots] at h
    split at h
    · exact absurd h (by simp)
    · rename_i hemp
      split at h
      · rcases ih _ _ _ _ h i d pn hbv with h1 | ⟨s, hm, hrest⟩
        · exact Or.inl h1
        · exact Or.inr ⟨s, List.mem_cons_of_mem _ hm, hrest⟩
      · rename_i hlatest
        split at h
        · rename_i hvalid
          rcases ih _ _ _ _ h i d pn hbv with h1 | ⟨s, hm, hrest⟩
          · unfold updateBest at h1
            cases bv with
            | none =>
              injection h1 with h2
              injection h2 with h3 h4
              injection h4 with h5 h6
              subst h3
              subst h6
              refine Or.inr ⟨slot, by simp, by simpa using hvalid, rfl, ?_⟩
              simpa using hlatest
            | some b =>
              obtain ⟨bidx, bdelta, bpn⟩ := b
              simp only at h1
              split at h1
              · injection h1 with h2
                injection h2 with h3 h4
                injection h4 with h5 h6
                subst h3
                subst h6
                refine Or.inr ⟨slot, by simp, by simpa using hvalid, rfl, ?_⟩
                simpa using hlatest
              · injection h1 with h2
                injection h2 with h3 h4
                injection h4 with h5 h6
                subst h3
                subst h5
                subst h6
                exact Or.inl rfl
          · exact Or.inr ⟨s, List.mem_cons_of_mem _ hm, hrest⟩
        · rcases ih _ _ _ _ h i d pn hbv with h1 | ⟨s, hm, hrest⟩
          · exact Or.inl h1
          · exact Or.inr ⟨s, List.mem_cons_of_mem _ hm, hrest⟩

theorem selectStep_latest (prec : Nat → Nat → Bool) (pageno : Nat)
    (st : SlruBankState) (step : SelectStep) (st1 : SlruBankState) :
    selectStep prec pageno st = (step, st1) →
    st1.latestPageNumber = st.latestPageNumber ∧ st1.slots = st.slots := by
  intro h
  simp only [selectStep] at h
  repeat' split at h
  all_goals
    injection h with h1 h2
    subst h2
    exact ⟨rfl, rfl⟩

theorem selectStep_done (prec : Nat → Nat → Bool) (pageno : Nat)
    (st : SlruBankState) (i : Nat) (st1 : SlruBankState) :
    selectStep prec pageno st = (SelectStep.done i, st1) →
    ∃ slot, st.slots.get? i = some slot ∧
      ((slot.pageno = pageno ∧ slot.status ≠ SlruPageStatus.empty) ∨
       slot.status = SlruPageStatus.empty ∨
       (slot.status = SlruPageStatus.valid ∧ slot.dirty = false)) ∧
      (slot.status ≠ SlruPageStatus.empty → slot.pageno ≠ pageno →
        slot.pageno ≠ st.latestPageNumber) := by
  intro h
  simp only [selectStep] at h
  split at h
  · rename_i e hfind
    injection h with h1 h2
    injection h1 with h3
    have hp := List.find?_some hfind
    have hmem := List.mem_of_find?_eq_some hfind
    obtain ⟨-, hget⟩ := enumSlots_mem st.slots 0 e.1 e.2 (by simpa using hmem)
    simp only [Nat.sub_zero] at hget
    simp only [Bool.and_eq_true, bne_iff_ne, beq_iff_eq, Ne] at hp
    refine ⟨e.2, by rw [← h3]; exact hget, Or.inl ⟨hp.2, hp.1⟩, ?_⟩
    intro _ hne
    exact absurd hp.2 hne
  · split at h
    · rename_i j hscan
      injection h with h1 h2
      injection h1 with h3
      obtain ⟨slot, hm, hs⟩ :=
        scanBankSlots_emptySlot st.latestPageNumber st.curLruCount prec
          (enumSlots 0 st.slots) none none j hscan
      obtain ⟨-, hget⟩ := enumSlots_mem st.slots 0 j slot hm
      simp only [Nat.sub_zero] at hget
      refine ⟨slot, by rw [← h3]; exact hget, Or.inr (Or.inl hs),
        fun hne _ => absurd hs hne⟩
    · injection h with h1 h2
      exact absurd h1 (by simp)
    · injection h with h1 h2
      exact absurd h1 (by simp)
    · rename_i bv bi hscan
      split at h
      · injection h with h1 h2
        exact absurd h1 (by simp)
      · rename_i slot hget
        split at h
        · rename_i hdirty
          injection h with h1 h2
          injection h1 with h3
          have hbv := scanBankSlots_bestValid st.latestPageNumber
            st.curLruCount prec (enumSlots 0 st.slots) none none
            (some bv) bi hscan bv.1 bv.2.1 bv.2.2 (by simp)
          rcases hbv with hbv | ⟨slot2, hm, hvalid, hpn, hlat⟩
          · exact Option.noConfusion hbv
          · obtain ⟨-, hget2⟩ := enumSlots_mem st.slots 0 bv.1 slot2 hm
            simp only [Nat.sub_zero] at hget2
            rw [hget] at hget2
            obtain rfl := Option.some.inj hget2
            refine ⟨slot, by rw [← h3]; exact hget, ?_, ?_⟩
            · exact Or.inr (Or.inr ⟨hvalid, by simpa using hdirty⟩)
            · intro _ _
              rw [hpn]
              exact hlat
        · injection h with h1 h2
          exact absurd h1 (by simp)

theorem slruSelectLRUPage_spec (prec : Nat → Nat → Bool) :
    ∀ fuel pageno st i st2,
      SlruSelectLRUPage prec fuel pageno st = some (i, st2) →
      st2.latestPageNumber = st.latestPageNumber ∧
      ∃ slot, st2.slots.get? i = some slot ∧
        ((slot.pageno = pageno ∧ slot.status ≠ SlruPageStatus.empty) ∨
         slot.status = SlruPageStatus.empty ∨
         (slot.status = SlruPageStatus.valid ∧ slot.dirty = false)) ∧
        (slot.status ≠ SlruPageStatus.empty → slot.pageno ≠ pageno →
          slot.pageno ≠ st.latestPageNumber) := by
  intro fuel
  induction fuel with
  | zero => intro pageno st i st2 h; simp [SlruSelectLRUPage] at h
  | succ fuel ih =>
    intro pageno st i st2 h
    simp only [SlruSelectLRUPage] at h
    split at h
    · rename_i j st1 hstep
      injection h with h1
      injection h1 with h2 h3
      rw [h2, h3] at hstep
      obtain ⟨hlat, hslots⟩ := selectStep_latest prec pageno st _ _ hstep
      obtain ⟨slot, hget, hdisj, havoid⟩ :=
        selectStep_done prec pageno st i st2 hstep
      exact ⟨hlat, slot, by rw [hslots]; exact hget, hdisj, havoid⟩
    · rename_i j st1 hstep
      obtain ⟨hlat, hslots⟩ := selectStep_latest prec pageno st _ _ hstep
      obtain ⟨hl2, slot, hget, hdisj, havoid⟩ :=
        ih pageno (waitIOSlot j st1) i st2 h
      have hwl : (waitIOSlot j st1).latestPageNumber = st.latestPageNumber := by
        simp [waitIOSlot, hlat]
      rw [hwl] at hl2 havoid
      exact ⟨hl2, slot, hget, hdisj, havoid⟩
    · rename_i j st1 hstep
      obtain ⟨hlat, hslots⟩ := selectStep_latest prec pageno st _ _ hstep
      obtain ⟨hl2, slot, hget, hdisj, havoid⟩ :=
        ih pageno (writeSlot j st1) i st2 h
      have hwl : (writeSlot j st1).latestPageNumber = st.latestPageNumber := by
        simp [writeSlot, hlat]
      rw [hwl] at hl2 havoid
      exact ⟨hl2, slot, hget, hdisj, havoid⟩
    · exact Option.noConfusion h

/-- C6: SlruSelectLRUPage returns either a slot already holding the
requested page (in any non-EMPTY state) or a freeable slot (EMPTY, or
VALID and clean) of the page's bank, and whenever the returned slot
holds some other page, that page is never the bank's latest page
number; since SimpleLruZeroPage records the page it zeroes as the
latest page number, any later victim selection, after any sequence of
operations that does not zero another page, never picks the slot
holding the most recently zeroed page. -/
theorem C6_select_victim_never_latest (prec : Nat → Nat → Bool) :
    (∀ fuel pageno st i st2,
      SlruSelectLRUPage prec fuel pageno st = some (i, st2) →
      st2.latestPageNumber = st.latestPageNumber ∧
      ∃ slot, st2.slots.get? i = some slot ∧
        ((slot.pageno = pageno ∧ slot.status ≠ SlruPageStatus.empty) ∨
         slot.status = SlruPageStatus.empty ∨
         (slot.status = SlruPageStatus.valid ∧ slot.dirty = false)) ∧
        (slot.status ≠ SlruPageStatus.empty → slot.pageno ≠ pageno →
          slot.pageno ≠ st.latestPageNumber)) ∧
    (∀ fuel pageno st i st2,
      SimpleLruZeroPage prec fuel pageno st = some (i, st2) →
      st2.latestPageNumber = pageno ∧
      ∀ fuel2 p2 j st3,
        SlruSelectLRUPage prec fuel2 p2 st2 = some (j, st3) →
        ∀ slot, st3.slots.get? j = some slot →
          slot.status ≠ SlruPageStatus.empty → slot.pageno ≠ p2 →
          slot.pageno ≠ pageno) := by
  refine ⟨slruSelectLRUPage_spec prec, fun fuel pageno st i st2 h => ?_⟩
  have hz : st2.latestPageNumber = pageno := by
    simp only [SimpleLruZeroPage] at h
    split at h
    · exact Option.noConfusion h
    · split at h
      · exact Option.noConfusion h
      · injection h with h1
        injection h1 with h2 h3
        rw [← h3]
  refine ⟨hz, fun fuel2 p2 j st3 hsel slot hget hne hnp => ?_⟩
  obtain ⟨hl, slot2, hget2, hdisj, havoid⟩ :=
    slruSelectLRUPage_spec prec fuel2 p2 st2 j st3 hsel
  rw [hget] at hget2
  obtain rfl := Option.some.inj hget2
  have hfin := havoid hne hnp
  rw [hz] at hfin
  exact hfin

/-- Witness for C6: a two-slot bank whose latest page 9 sits in a dirty
slot; selecting a victim for page 5 picks the clean slot holding page 7,
not the latest page. -/
theorem C6_select_victim_never_latest_witness :
    SlruSelectLRUPage MultiXactOffsetPagePrecedes 3 5
      { curLruCount := 10, latestPageNumber := 9,
        slots := [{ status := SlruPageStatus.valid, dirty := false,
                    pageno := 7, lruCount := 3 },
                  { status := SlruPageStatus.valid, dirty := true,
                    pageno := 9, lruCount := 8 }] } =
      some (0,
        { curLruCount := 11, latestPageNumber := 9,
          slots := [{ status := SlruPageStatus.valid, dirty := false,
                      pageno := 7, lruCount := 3 },
                    { status := SlruPageStatus.valid, dirty := true,
                      pageno := 9, lruCount := 8 }] }) ∧
    ({ curLruCount := 11, latestPageNumber := 9,
       slots := [{ status := SlruPageStatus.valid, dirty := false,
                   pageno := 7, lruCount := 3 },
                 { status := SlruPageStatus.valid, dirty := true,
                   pageno := 9, lruCount := 8 }] } : SlruBankState
     ).latestPageNumber =
    ({ curLruCount := 10, latestPageNumber := 9,
       slots := [{ status := SlruPageStatus.valid, dirty := false,
                   pageno := 7, lruCount := 3 },
                 { status := SlruPageStatus.valid, dirty := true,
                   pageno := 9, lruCount := 8 }] } : SlruBankState
     ).latestPageNumber :=
  have hsel : SlruSelectLRUPage MultiXactOffsetPagePrecedes 3 5
      { curLruCount := 10, latestPageNumber := 9,
        slots := [{ status := SlruPageStatus.valid, dirty := false,
                    pageno := 7, lruCount := 3 },
                  { status := SlruPageStatus.valid, dirty := true,
                    pageno := 9, lruCount := 8 }] } =
      some (0,
        { curLruCount := 11, latestPageNumber := 9,
          slots := [{ status := SlruPageStatus.valid, dirty := false,
                      pageno := 7, lruCount := 3 },
                    { status := SlruPageStatus.valid, dirty := true,
                      pageno := 9, lruCount := 8 }] }) := by decide
  ⟨hsel, ((C6_select_victim_never_latest
    MultiXactOffsetPagePrecedes).1 3 5 _ 0 _ hsel).1⟩
